import Mathlib

/-!
Verification of the WebApiTester core (src/types/Unit.ts and its interface
file) against its design specification.

The development is a shallow embedding of the TypeScript source:

* `HTTPMethod` mirrors the HTTPMethod enum.
* `JSValue` models the JavaScript values that flow through the untyped
  positions (`data: any`, transport errors); `JSValue.truthy` models
  JavaScript truthiness, which the constructors use via the `x || default`
  idiom.
* Header objects (axios AxiosHeaders) and query objects (JS Map) are both
  modelled by their contents, an ordered association list
  `Entries = List (String, String)`; `entriesSet` models
  `AxiosHeaders.set` / `Map.set` on states reachable in the program (keys
  are unique there, because both containers are keyed stores that cannot
  hold two entries for one key).
* Callbacks are opaque identities (`Callback = Nat`); invoking one is
  recorded as an `Event`.  The dispatch protocol of `TestEngine.start` is
  modelled by `buildRequest` (the per-endpoint merge, handed to the
  transport) and `handleOutcome` (the fan-out run in the completion
  handler), with the unordered asynchronous completions abstracted as an
  oracle `Nat → Outcome` indexed by issuance order.
* A second, store-based model (`Store`, `Api.newW`, `Api.cloneW`,
  `mergeStepW`) makes object identity explicit; it is used for the claims
  about reference sharing and mutation isolation of `Api.clone`.
-/

set_option autoImplicit false

namespace WebApiTester

/-- HTTP methods, from the `HTTPMethod` enum of the interface file. -/
inductive HTTPMethod where
  | GET
  | POST
  | PUT
  | PATCH
  | HEAD
  | DELETE
deriving DecidableEq, Repr

/-- JavaScript runtime values, as far as the untyped positions of the source
need them.  `obj id` is a reference to an object; in the pure model the
identity is ignored and `obj 0` stands for a fresh empty object literal. -/
inductive JSValue where
  | undef
  | null
  | bool (b : Bool)
  | num (n : Int)
  | str (s : String)
  | obj (id : Nat)
deriving DecidableEq, Repr

/-- JavaScript truthiness, used by the `x || default` idiom of the
constructors. -/
def JSValue.truthy : JSValue → Bool
  | .undef => false
  | .null => false
  | .bool b => b
  | .num n => n != 0
  | .str s => s != ""
  | .obj _ => true

/-- Contents of a keyed string-to-string container (axios AxiosHeaders, or a
JS `Map<string, string>`), in insertion order. -/
abbrev Entries := List (String × String)

/-- `AxiosHeaders.set(key, value)` / `Map.set(key, value)`: overwrite the
value stored at an existing key in place, otherwise append the new entry.
(On the duplicate-free lists that these containers can actually hold, this
is exactly the JS behaviour.) -/
def entriesSet : Entries → String → String → Entries
  | [], k, v => [(k, v)]
  | (k', v') :: rest, k, v =>
      if k' = k then (k', v) :: rest else (k', v') :: entriesSet rest k v

/-- Read the value stored at a key. -/
def entriesGet (k : String) : Entries → Option String
  | [] => none
  | (k', v') :: rest => if k' = k then some v' else entriesGet k rest

/-- Apply every entry of `src`, in order, onto `base` by `entriesSet`.  This
is `AxiosHeaders.set(object)` and the `querys.forEach((v, k) =>
params.set(k, v))` loop of `start`. -/
def entriesSetAll (base src : Entries) : Entries :=
  src.foldl (fun acc p => entriesSet acc p.1 p.2) base

/-- Number of entries stored for key `k`. -/
def countKey (k : String) (h : Entries) : Nat :=
  (h.filter (fun p => p.1 = k)).length

/-- The axios instance method `AxiosHeaders.prototype.concat`:
`concat(...targets)` returns `AxiosHeaders.concat(this, ...targets)`, which
builds a NEW AxiosHeaders from `this` and then sets each target onto it.
It returns the merged copy and leaves the receiver unchanged. -/
def headersConcat (self target : Entries) : Entries :=
  entriesSetAll (entriesSetAll [] self) target

/-- Callbacks are modelled by identity only. -/
abbrev Callback := Nat

/-- The identity of the no-op handler `(_) => { }` that the constructors
install when no `error_callback` is supplied. -/
def noopCallback : Callback := 0

/-- The response shape the core consumes: a numeric status code and a body
payload. -/
structure Response where
  status : Int
  data : JSValue
deriving DecidableEq, Repr

/-- The `Api` class (the Endpoint level), by field contents. -/
structure Api where
  path : String
  method : HTTPMethod
  headers : Entries
  querys : Entries
  success_callbacks : List Callback
  fail_callbacks : List Callback
  error_callback : Callback
  verify : Response → Bool
  data : JSValue
  name : String
  description : String

/-- The `Module` class: a ConfigNode plus its `apis` children. -/
structure Module where
  path : String
  headers : Entries
  querys : Entries
  success_callbacks : List Callback
  fail_callbacks : List Callback
  error_callback : Callback
  apis : List Api
  name : String
  description : String

/-- The `WebSite` class (the Site level): a ConfigNode plus its `modules`
children. -/
structure WebSite where
  path : String
  headers : Entries
  querys : Entries
  success_callbacks : List Callback
  fail_callbacks : List Callback
  error_callback : Callback
  modules : List Module
  name : String
  description : String

/-- The `TestEngine` class (the root): a ConfigNode plus its `webSites`
children. -/
structure TestEngine where
  path : String
  headers : Entries
  querys : Entries
  success_callbacks : List Callback
  fail_callbacks : List Callback
  error_callback : Callback
  webSites : List WebSite
  name : String
  description : String

/-- The `x || default` idiom applied to an optional string parameter: both
an omitted argument (`undefined`) and an empty string are falsy and take the
default. -/
def jsOrString (o : Option String) (d : String) : String :=
  match o with
  | none => d
  | some s => if s = "" then d else s

/-- The `data || {}` idiom of the `Api` constructor: an omitted or falsy
payload is replaced by a fresh empty object literal. -/
def jsOrData (o : Option JSValue) : JSValue :=
  match o with
  | none => JSValue.obj 0
  | some d => if d.truthy then d else JSValue.obj 0

/-- The default verification predicate `(r) => r.status === 200` installed
by the `Api` constructor when `verify` is omitted. -/
def Api.defaultVerify : Response → Bool := fun r => r.status == 200

/-- Options object of the `Api` constructor.  `path` and `method` are
required, everything else optional. -/
structure ApiConfig where
  path : String
  method : HTTPMethod
  headers : Option Entries := none
  querys : Option Entries := none
  success_callbacks : Option (List Callback) := none
  fail_callbacks : Option (List Callback) := none
  error_callback : Option Callback := none
  verify : Option (Response → Bool) := none
  data : Option JSValue := none
  name : Option String := none
  description : Option String := none

/-- The `Api` constructor. -/
def Api.make (c : ApiConfig) : Api :=
  { path := c.path
    method := c.method
    headers := c.headers.getD []
    querys := c.querys.getD []
    success_callbacks := c.success_callbacks.getD []
    fail_callbacks := c.fail_callbacks.getD []
    error_callback := c.error_callback.getD noopCallback
    verify := c.verify.getD Api.defaultVerify
    data := jsOrData c.data
    name := jsOrString c.name ""
    description := jsOrString c.description "" }

/-- Options object of the `Module` constructor: `path` required, the rest
optional. -/
structure ModuleConfig where
  path : String
  headers : Option Entries := none
  querys : Option Entries := none
  success_callbacks : Option (List Callback) := none
  fail_callbacks : Option (List Callback) := none
  error_callback : Option Callback := none
  apis : Option (List Api) := none
  name : Option String := none
  description : Option String := none

/-- The `Module` constructor. -/
def Module.make (c : ModuleConfig) : Module :=
  { path := c.path
    headers := c.headers.getD []
    querys := c.querys.getD []
    success_callbacks := c.success_callbacks.getD []
    fail_callbacks := c.fail_callbacks.getD []
    error_callback := c.error_callback.getD noopCallback
    apis := c.apis.getD []
    name := jsOrString c.name ""
    description := jsOrString c.description "" }

/-- Options object of the `WebSite` constructor: `path` required, the rest
optional. -/
structure WebSiteConfig where
  path : String
  headers : Option Entries := none
  querys : Option Entries := none
  success_callbacks : Option (List Callback) := none
  fail_callbacks : Option (List Callback) := none
  error_callback : Option Callback := none
  modules : Option (List Module) := none
  name : Option String := none
  description : Option String := none

/-- The `WebSite` constructor. -/
def WebSite.make (c : WebSiteConfig) : WebSite :=
  { path := c.path
    headers := c.headers.getD []
    querys := c.querys.getD []
    success_callbacks := c.success_callbacks.getD []
    fail_callbacks := c.fail_callbacks.getD []
    error_callback := c.error_callback.getD noopCallback
    modules := c.modules.getD []
    name := jsOrString c.name ""
    description := jsOrString c.description "" }

/-- Options object of the `TestEngine` constructor.  Note: the source
destructures exactly `headers, querys, success_callbacks, fail_callbacks,
error_callback, webSites, name, description` — there is NO `path` option at
this level. -/
structure EngineConfig where
  headers : Option Entries := none
  querys : Option Entries := none
  success_callbacks : Option (List Callback) := none
  fail_callbacks : Option (List Callback) := none
  error_callback : Option Callback := none
  webSites : Option (List WebSite) := none
  name : Option String := none
  description : Option String := none

/-- The `TestEngine` constructor; it unconditionally assigns
`this.path = ""`. -/
def TestEngine.make (c : EngineConfig) : TestEngine :=
  { path := ""
    headers := c.headers.getD []
    querys := c.querys.getD []
    success_callbacks := c.success_callbacks.getD []
    fail_callbacks := c.fail_callbacks.getD []
    error_callback := c.error_callback.getD noopCallback
    webSites := c.webSites.getD []
    name := jsOrString c.name "TestEngine"
    description := jsOrString c.description "TestEngine" }

/-- `Api.clone`: builds a new `Api` by passing every current field of the
receiver to the `Api` constructor. -/
def Api.clone (a : Api) : Api :=
  Api.make
    { path := a.path
      method := a.method
      headers := some a.headers
      querys := some a.querys
      success_callbacks := some a.success_callbacks
      fail_callbacks := some a.fail_callbacks
      error_callback := some a.error_callback
      verify := some a.verify
      data := some a.data
      name := some a.name
      description := some a.description }

/-- The request handed to the transport: `HTTPClient.do(capi)` forwards
`capi.method`, `capi.path` (as `url`), `capi.headers`, `capi.querys` (as
`params`) and `capi.data` to `axios.request`. -/
structure Request where
  method : HTTPMethod
  url : String
  headers : Entries
  params : Entries
  data : JSValue

/-- The merge step of `TestEngine.start` for one endpoint: clone the api,
build the headers, path and query parameters, and form the request given to
`client.do`. -/
def buildRequest (e : TestEngine) (w : WebSite) (m : Module) (a : Api) : Request :=
  -- let capi = api.clone();
  let capi := a.clone
  -- let header = new AxiosHeaders();
  let header : Entries := []
  -- [this, webSite, module, api].forEach((level) => { header.concat(level.headers); });
  -- The axios instance method concat returns a fresh merged AxiosHeaders
  -- (see headersConcat) and leaves the receiver untouched; the source
  -- discards each returned object, so header keeps its empty contents.
  let _ := [e.headers, w.headers, m.headers, a.headers].map
    (fun t => headersConcat header t)
  -- capi.headers = header;
  let capi := { capi with headers := header }
  -- capi.path = [this, webSite, module, api].map(level => level.path).join("");
  let capi := { capi with path := String.join [e.path, w.path, m.path, a.path] }
  -- let params = new Map(); [this, webSite, module, api].forEach((level) =>
  --   { level.querys.forEach((value, key) => { params.set(key, value); }); });
  let params := [e.querys, w.querys, m.querys, a.querys].foldl entriesSetAll []
  -- capi.querys = params;
  let capi := { capi with querys := params }
  -- client.do(capi)
  { method := capi.method
    url := capi.path
    headers := capi.headers
    params := capi.querys
    data := capi.data }

/-- The four tree levels, used to tag which node a callback belongs to. -/
inductive Level where
  | engine
  | site
  | module
  | api
deriving DecidableEq, Repr

/-- Observable callback invocations of one dispatch, in execution order. -/
inductive Event where
  | verifyCall (r : Response) (verdict : Bool)
  | success (lvl : Level) (cb : Callback) (r : Response)
  | failure (lvl : Level) (cb : Callback) (r : Response)
  | error (lvl : Level) (cb : Callback) (e : JSValue)
deriving DecidableEq, Repr

/-- `notify(value)` of a node: invoke every success callback, in insertion
order, with the response. -/
def notifyEvents (lvl : Level) (cbs : List Callback) (r : Response) : List Event :=
  cbs.map (fun c => Event.success lvl c r)

/-- `fail(value)` of a node: invoke every fail callback, in insertion order,
with the response. -/
def failEvents (lvl : Level) (cbs : List Callback) (r : Response) : List Event :=
  cbs.map (fun c => Event.failure lvl c r)

/-- Terminal outcome of one transport call: the promise resolves with a
response or rejects with an error value. -/
inductive Outcome where
  | ok (r : Response)
  | err (e : JSValue)

/-- The completion handler of one dispatch in `TestEngine.start`:
`client.do(capi).then((response) => {...}).catch((error) => {...})`.
On a response, `api.verify(response)` gates a notify or fail fan-out over
api, module, webSite, this, in that order; on a rejection, the four
`error_callback`s run in the same leaf-to-root order. -/
def handleOutcome (e : TestEngine) (w : WebSite) (m : Module) (a : Api) :
    Outcome → List Event
  | .ok r =>
      Event.verifyCall r (a.verify r) ::
        (if a.verify r then
          notifyEvents .api a.success_callbacks r ++
            notifyEvents .module m.success_callbacks r ++
            notifyEvents .site w.success_callbacks r ++
            notifyEvents .engine e.success_callbacks r
        else
          failEvents .api a.fail_callbacks r ++
            failEvents .module m.fail_callbacks r ++
            failEvents .site w.fail_callbacks r ++
            failEvents .engine e.fail_callbacks r)
  | .err er =>
      [Event.error .api a.error_callback er,
       Event.error .module m.error_callback er,
       Event.error .site w.error_callback er,
       Event.error .engine e.error_callback er]

/-- The list of (webSite, module, api) triples `start` iterates over, in
issuance order. -/
def TestEngine.dispatches (e : TestEngine) : List (WebSite × Module × Api) :=
  e.webSites.flatMap fun w =>
    w.modules.flatMap fun m =>
      m.apis.map fun a => (w, m, a)

/-- `TestEngine.start`: for every api of every module of every website,
build and issue one request, and run, for each dispatch, the completion handler on
its own outcome.  Completion is asynchronous and unordered, so the outcomes
are abstracted as an oracle indexed by issuance position; the returned list
pairs each dispatched request with the events of its completion handler. -/
def TestEngine.start (e : TestEngine) (complete : Nat → Outcome) :
    List (Request × List Event) :=
  e.dispatches.enum.map fun p =>
    (buildRequest e p.2.1 p.2.2.1 p.2.2.2,
      handleOutcome e p.2.1 p.2.2.1 p.2.2.2 (complete p.1))

/-! ### Lemmas about the keyed containers -/

/-- First-some choice on options, used to phrase last-writer-wins lookup. -/
def orFirst (a b : Option String) : Option String :=
  match a with
  | some v => some v
  | none => b

@[simp]
theorem orFirst_none (b : Option String) : orFirst none b = b := rfl

@[simp]
theorem orFirst_some (v : String) (b : Option String) : orFirst (some v) b = some v := rfl

theorem entriesGet_entriesSet (h : Entries) (k k' v : String) :
    entriesGet k (entriesSet h k' v) =
      if k' = k then some v else entriesGet k h := by
  induction h with
  | nil => simp [entriesSet, entriesGet]
  | cons p rest ih =>
      obtain ⟨a, b⟩ := p
      by_cases hak : a = k'
      · subst hak
        by_cases hk : a = k <;> simp [entriesSet, entriesGet, hk]
      · by_cases hk : a = k
        · subst hk
          have : ¬ k' = a := fun hc => hak hc.symm
          simp [entriesSet, entriesGet, hak, this]
        · simp [entriesSet, entriesGet, hak, hk, ih]

theorem entriesGet_eq_none_of_not_mem (h : Entries) (k : String)
    (hk : k ∉ h.map Prod.fst) : entriesGet k h = none := by
  induction h with
  | nil => rfl
  | cons p rest ih =>
      simp only [List.map_cons, List.mem_cons] at hk
      push_neg at hk
      have : ¬ p.1 = k := fun hc => hk.1 hc.symm
      simpa [entriesGet, this] using ih hk.2

theorem entriesGet_entriesSetAll (q : Entries) (base : Entries)
    (hq : (q.map Prod.fst).Nodup) (k : String) :
    entriesGet k (entriesSetAll base q) =
      orFirst (entriesGet k q) (entriesGet k base) := by
  induction q generalizing base with
  | nil => simp [entriesSetAll, entriesGet]
  | cons p q ih =>
      simp only [List.map_cons, List.nodup_cons] at hq
      have hstep : entriesSetAll base (p :: q) =
          entriesSetAll (entriesSet base p.1 p.2) q := rfl
      rw [hstep, ih (entriesSet base p.1 p.2) hq.2]
      by_cases hk : p.1 = k
      · have hnone : entriesGet k q = none := by
          apply entriesGet_eq_none_of_not_mem
          rw [← hk]; exact hq.1
        simp [entriesGet, hk, hnone, entriesGet_entriesSet]
      · simp [entriesGet, hk, entriesGet_entriesSet]

/-- Last-writer-wins characterisation of the four-level query merge loop of
`start`: a key resolves to the value set nearest the leaf. -/
theorem entriesGet_merge4 (qe qw qm qa : Entries)
    (he : (qe.map Prod.fst).Nodup) (hw : (qw.map Prod.fst).Nodup)
    (hm : (qm.map Prod.fst).Nodup) (ha : (qa.map Prod.fst).Nodup)
    (k : String) :
    entriesGet k ([qe, qw, qm, qa].foldl entriesSetAll []) =
      orFirst (entriesGet k qa) (orFirst (entriesGet k qm)
        (orFirst (entriesGet k qw) (entriesGet k qe))) := by
  have hfold : [qe, qw, qm, qa].foldl entriesSetAll [] =
      entriesSetAll (entriesSetAll (entriesSetAll (entriesSetAll [] qe) qw) qm) qa := rfl
  rw [hfold, entriesGet_entriesSetAll qa _ ha, entriesGet_entriesSetAll qm _ hm,
    entriesGet_entriesSetAll qw _ hw, entriesGet_entriesSetAll qe _ he]
  have : entriesGet k ([] : Entries) = none := rfl
  rw [this]
  cases entriesGet k qe <;> simp

theorem countKey_eq_zero_iff (k : String) (h : Entries) :
    countKey k h = 0 ↔ h.filter (fun p => p.1 = k) = [] := by
  unfold countKey
  exact List.length_eq_zero

/-- After an upsert at key `k` on a duplicate-free-at-`k` container, the
container holds exactly one entry for `k`, with the written value. -/
theorem filter_entriesSet (h : Entries) (k v : String) (hk : countKey k h ≤ 1) :
    (entriesSet h k v).filter (fun p => p.1 = k) = [(k, v)] := by
  induction h with
  | nil => simp [entriesSet, List.filter_cons]
  | cons p rest ih =>
      obtain ⟨a, b⟩ := p
      by_cases hak : a = k
      · subst hak
        have hcons : countKey a ((a, b) :: rest) = countKey a rest + 1 := by
          unfold countKey
          simp [List.filter_cons]
        have hrest : countKey a rest = 0 := by omega
        rw [countKey_eq_zero_iff] at hrest
        simp [entriesSet, List.filter_cons, hrest]
      · have hrest : countKey k rest ≤ 1 := by
          unfold countKey at hk ⊢
          simp only [List.filter_cons, decide_eq_true_eq] at hk
          simp only [if_neg hak] at hk
          exact hk
        simp [entriesSet, hak, List.filter_cons, ih hrest]

theorem countKey_entriesSet_le (h : Entries) (k v : String) (hk : countKey k h ≤ 1) :
    countKey k (entriesSet h k v) ≤ 1 := by
  unfold countKey
  rw [filter_entriesSet h k v hk]
  simp

/-! ### The add-operations of the four classes -/

/-- `TestEngine.addHeader`: `this.headers.set(key, value)`. -/
def TestEngine.addHeader (x : TestEngine) (k v : String) : TestEngine :=
  { x with headers := entriesSet x.headers k v }

/-- `TestEngine.addQuery`: `this.querys.set(key, value)`. -/
def TestEngine.addQuery (x : TestEngine) (k v : String) : TestEngine :=
  { x with querys := entriesSet x.querys k v }

/-- `TestEngine.addSuccessCallback`: `this.success_callbacks.push(callback)`. -/
def TestEngine.addSuccessCallback (x : TestEngine) (c : Callback) : TestEngine :=
  { x with success_callbacks := x.success_callbacks ++ [c] }

/-- `TestEngine.addFailCallback`: `this.fail_callbacks.push(callback)`. -/
def TestEngine.addFailCallback (x : TestEngine) (c : Callback) : TestEngine :=
  { x with fail_callbacks := x.fail_callbacks ++ [c] }

/-- `WebSite.addHeader`: `this.headers.set(key, value)`. -/
def WebSite.addHeader (x : WebSite) (k v : String) : WebSite :=
  { x with headers := entriesSet x.headers k v }

/-- `WebSite.addQuery`: `this.querys.set(key, value)`. -/
def WebSite.addQuery (x : WebSite) (k v : String) : WebSite :=
  { x with querys := entriesSet x.querys k v }

/-- `WebSite.addSuccessCallback`: `this.success_callbacks.push(callback)`. -/
def WebSite.addSuccessCallback (x : WebSite) (c : Callback) : WebSite :=
  { x with success_callbacks := x.success_callbacks ++ [c] }

/-- `WebSite.addFailCallback`: `this.fail_callbacks.push(callback)`. -/
def WebSite.addFailCallback (x : WebSite) (c : Callback) : WebSite :=
  { x with fail_callbacks := x.fail_callbacks ++ [c] }

/-- `Module.addHeader`: `this.headers.set(key, value)`. -/
def Module.addHeader (x : Module) (k v : String) : Module :=
  { x with headers := entriesSet x.headers k v }

/-- `Module.addQuery`: `this.querys.set(key, value)`. -/
def Module.addQuery (x : Module) (k v : String) : Module :=
  { x with querys := entriesSet x.querys k v }

/-- `Module.addSuccessCallback`: `this.success_callbacks.push(callback)`. -/
def Module.addSuccessCallback (x : Module) (c : Callback) : Module :=
  { x with success_callbacks := x.success_callbacks ++ [c] }

/-- `Module.addFailCallback`: `this.fail_callbacks.push(callback)`. -/
def Module.addFailCallback (x : Module) (c : Callback) : Module :=
  { x with fail_callbacks := x.fail_callbacks ++ [c] }

/-- `Api.addHeader`: `this.headers.set(key, value)`. -/
def Api.addHeader (x : Api) (k v : String) : Api :=
  { x with headers := entriesSet x.headers k v }

/-- `Api.addQuery`: `this.querys.set(key, value)`. -/
def Api.addQuery (x : Api) (k v : String) : Api :=
  { x with querys := entriesSet x.querys k v }

/-- `Api.addSuccessCallback`: `this.success_callbacks.push(callback)`. -/
def Api.addSuccessCallback (x : Api) (c : Callback) : Api :=
  { x with success_callbacks := x.success_callbacks ++ [c] }

/-- `Api.addFailCallback`: `this.fail_callbacks.push(callback)`. -/
def Api.addFailCallback (x : Api) (c : Callback) : Api :=
  { x with fail_callbacks := x.fail_callbacks ++ [c] }

/-! ### Sample tree used to instantiate hypotheses of the claim theorems -/

/-- A sample Endpoint: path `/e`, default `verify`, one header `H=b`. -/
def sampleApi : Api :=
  Api.make
    { path := "/e"
      method := .GET
      headers := some [("H", "b")]
      querys := some [("q", "qa")]
      success_callbacks := some [11, 12]
      fail_callbacks := some [13]
      error_callback := some 14 }

/-- A sample Module with an empty path fragment, owning `sampleApi`. -/
def sampleModule : Module :=
  Module.make
    { path := ""
      querys := some [("q", "qm")]
      success_callbacks := some [21]
      fail_callbacks := some [22]
      error_callback := some 23
      apis := some [sampleApi] }

/-- A sample Site with path `/s`, owning `sampleModule`. -/
def sampleSite : WebSite :=
  WebSite.make
    { path := "/s"
      querys := some [("w", "ws")]
      success_callbacks := some [31]
      fail_callbacks := some [32]
      error_callback := some 33
      modules := some [sampleModule] }

/-- A sample Engine carrying header `H=a`, owning `sampleSite`.  Its `path`
is set after construction by direct field assignment, which the source
permits (the field is public) and which is the only way to give the root a
path fragment. -/
def sampleEngine : TestEngine :=
  { TestEngine.make
      { headers := some [("H", "a")]
        querys := some [("q", "qe")]
        success_callbacks := some [41]
        fail_callbacks := some [42]
        error_callback := some 43
        webSites := some [sampleSite] } with
    path := "https://x" }

/-- A response with status 200 (accepted by the default `verify`). -/
def resp200 : Response := { status := 200, data := JSValue.str "ok" }

/-- A response with status 404 (rejected by the default `verify`). -/
def resp404 : Response := { status := 404, data := JSValue.str "gone" }

/-! ### Claim theorems -/

/-- C1 (code bug): the spec says the dispatched headers are the
Engine-Site-Module-Endpoint merge with leaf precedence, but the source
builds them with `header.concat(level.headers)`, and the axios instance
method `concat` returns a fresh merged object without mutating its
receiver; `start` discards every returned object and assigns the untouched
empty accumulator to `capi.headers`.  Hence every dispatched request
carries an empty header set; in particular, with Engine header `H=a` and
Endpoint header `H=b`, the dispatched request has no header `H` at all
instead of `H=b`. -/
theorem dispatched_headers_are_empty :
    (∀ (e : TestEngine) (w : WebSite) (m : Module) (a : Api),
        (buildRequest e w m a).headers = []) ∧
      (buildRequest sampleEngine sampleSite sampleModule sampleApi).headers = [] ∧
      entriesGet "H"
        (buildRequest sampleEngine sampleSite sampleModule sampleApi).headers = none :=
  ⟨fun _ _ _ _ => rfl, rfl, rfl⟩

/-- C2 counterexample: the TestEngine constructor destructures no `path`
option (`EngineConfig` is the faithful model of its options object) and
unconditionally assigns the empty string, so an Engine is constructed with
every option omitted — `path` is not required, nor even recognised, at the
root level. -/
theorem engine_constructor_has_no_path_option :
    (TestEngine.make {}).path = "" ∧ (TestEngine.make {}).name = "TestEngine" :=
  ⟨rfl, rfl⟩

/-- C2 (amended): the Site, Module and Endpoint constructors require `path`
(and the Endpoint constructor additionally `method`), while the Engine
constructor recognises no `path` option and always produces `path = ""`;
at every level each omitted option takes its documented default (empty
collections, the no-op error handler, default `verify`, empty-object body)
rather than failing. -/
theorem constructor_required_options_and_defaults :
    (∀ c : EngineConfig, (TestEngine.make c).path = "") ∧
      TestEngine.make {} =
        { path := "", headers := [], querys := [], success_callbacks := [],
          fail_callbacks := [], error_callback := noopCallback, webSites := [],
          name := "TestEngine", description := "TestEngine" } ∧
      (∀ p : String, WebSite.make { path := p } =
        { path := p, headers := [], querys := [], success_callbacks := [],
          fail_callbacks := [], error_callback := noopCallback, modules := [],
          name := "", description := "" }) ∧
      (∀ p : String, Module.make { path := p } =
        { path := p, headers := [], querys := [], success_callbacks := [],
          fail_callbacks := [], error_callback := noopCallback, apis := [],
          name := "", description := "" }) ∧
      (∀ (p : String) (mth : HTTPMethod), Api.make { path := p, method := mth } =
        { path := p, method := mth, headers := [], querys := [],
          success_callbacks := [], fail_callbacks := [],
          error_callback := noopCallback, verify := Api.defaultVerify,
          data := JSValue.obj 0, name := "", description := "" }) :=
  ⟨fun _ => rfl, rfl, fun _ => rfl, fun _ => rfl, fun _ _ => rfl⟩

/-- C4: when the transport rejects with `e`, the completion handler runs
exactly the four error callbacks — Endpoint, Module, Site, Engine, in that
leaf-to-root order — each with `e`; the event list contains nothing else,
so neither `verify` nor any `notify`/`fail` callback runs on this path. -/
theorem transport_error_fanout (e : TestEngine) (w : WebSite) (m : Module)
    (a : Api) (er : JSValue) :
    handleOutcome e w m a (.err er) =
      [Event.error .api a.error_callback er,
       Event.error .module m.error_callback er,
       Event.error .site w.error_callback er,
       Event.error .engine e.error_callback er] ∧
      ∀ ev ∈ handleOutcome e w m a (.err er),
        ∃ lvl cb, ev = Event.error lvl cb er := by
  refine ⟨rfl, ?_⟩
  intro ev hev
  simp only [handleOutcome, List.mem_cons, List.mem_singleton,
    List.not_mem_nil, or_false] at hev
  rcases hev with h | h | h | h <;> exact ⟨_, _, h⟩

/-- C5: on a response `r`, the `verify` of the Endpoint (default: status code
equals 200) gates the fan-out: if it accepts, `notify(r)` fires on
Endpoint, Module, Site, Engine in that leaf-to-root order, each level
running its success callbacks in insertion order; if it rejects, `fail(r)`
fires at the same four levels in the same order and no success callback
runs. -/
theorem verify_gate (e : TestEngine) (w : WebSite) (m : Module) (a : Api)
    (r : Response) :
    Api.defaultVerify r = (r.status == 200) ∧
      (a.verify r = true →
        handleOutcome e w m a (.ok r) =
          Event.verifyCall r true ::
            (notifyEvents .api a.success_callbacks r ++
              notifyEvents .module m.success_callbacks r ++
              notifyEvents .site w.success_callbacks r ++
              notifyEvents .engine e.success_callbacks r)) ∧
      (a.verify r = false →
        handleOutcome e w m a (.ok r) =
          Event.verifyCall r false ::
            (failEvents .api a.fail_callbacks r ++
              failEvents .module m.fail_callbacks r ++
              failEvents .site w.fail_callbacks r ++
              failEvents .engine e.fail_callbacks r) ∧
          ∀ lvl cb r', Event.success lvl cb r' ∉ handleOutcome e w m a (.ok r)) := by
  refine ⟨rfl, ?_, ?_⟩
  · intro hv
    simp [handleOutcome, hv]
  · intro hv
    refine ⟨by simp [handleOutcome, hv], ?_⟩
    intro lvl cb r' hmem
    simp [handleOutcome, hv, notifyEvents, failEvents] at hmem

/-- Witness for C5 on the sample tree with the default `verify`: status 200
produces the notify fan-out, status 404 the fail fan-out. -/
theorem verify_gate_witness :
    handleOutcome sampleEngine sampleSite sampleModule sampleApi (.ok resp200) =
      [Event.verifyCall resp200 true,
       Event.success .api 11 resp200, Event.success .api 12 resp200,
       Event.success .module 21 resp200, Event.success .site 31 resp200,
       Event.success .engine 41 resp200] ∧
      handleOutcome sampleEngine sampleSite sampleModule sampleApi (.ok resp404) =
        [Event.verifyCall resp404 false,
         Event.failure .api 13 resp404, Event.failure .module 22 resp404,
         Event.failure .site 32 resp404, Event.failure .engine 42 resp404] := by
  have h1 := (verify_gate sampleEngine sampleSite sampleModule sampleApi resp200).2.1
    (by decide)
  have h2 := ((verify_gate sampleEngine sampleSite sampleModule sampleApi resp404).2.2
    (by decide)).1
  exact ⟨h1.trans (by decide), h2.trans (by decide)⟩

/-- Witness for C4 on the sample tree: the rejection value fans out to the
four error handlers, leaf to root, and nothing else fires. -/
theorem transport_error_fanout_witness :
    handleOutcome sampleEngine sampleSite sampleModule sampleApi
        (.err (JSValue.str "boom")) =
      [Event.error .api 14 (JSValue.str "boom"),
       Event.error .module 23 (JSValue.str "boom"),
       Event.error .site 33 (JSValue.str "boom"),
       Event.error .engine 43 (JSValue.str "boom")] ∧
      (∃ lvl cb,
        Event.error .api 14 (JSValue.str "boom") =
          Event.error lvl cb (JSValue.str "boom")) := by
  have h := transport_error_fanout sampleEngine sampleSite sampleModule
    sampleApi (JSValue.str "boom")
  refine ⟨h.1.trans (by decide), ?_⟩
  refine h.2 (Event.error .api 14 (JSValue.str "boom")) ?_
  rw [h.1]
  have : sampleApi.error_callback = 14 := by decide
  rw [this]
  exact List.mem_cons_self _ _

theorem string_join_four (p1 p2 p3 p4 : String) :
    String.join [p1, p2, p3, p4] = p1 ++ p2 ++ p3 ++ p4 := by
  simp [String.join]

/-- C6: the dispatched URL is the plain concatenation of the four path
fragments, Engine then Site then Module then Endpoint, with no separator
and no slash normalisation; on the example fragments of the spec it is exactly
`https://x/s/e`. -/
theorem path_concatenation :
    (∀ (e : TestEngine) (w : WebSite) (m : Module) (a : Api),
        (buildRequest e w m a).url = e.path ++ w.path ++ m.path ++ a.path) ∧
      (buildRequest sampleEngine sampleSite sampleModule sampleApi).url =
        "https://x/s/e" := by
  constructor
  · intro e w m a
    show String.join [e.path, w.path, m.path, a.path] = _
    exact string_join_four e.path w.path m.path a.path
  · decide

/-- C7: for query containers in their reachable (duplicate-free) states,
a key of the parameters of the dispatched request resolves to the value set
nearest the leaf — Endpoint over Module over Site over Engine — and the
body comes from the Endpoint alone (the other three levels never influence
it). -/
theorem query_merge_precedence (e : TestEngine) (w : WebSite) (m : Module)
    (a : Api) (he : (e.querys.map Prod.fst).Nodup)
    (hw : (w.querys.map Prod.fst).Nodup) (hm : (m.querys.map Prod.fst).Nodup)
    (ha : (a.querys.map Prod.fst).Nodup) :
    (∀ k, entriesGet k (buildRequest e w m a).params =
        orFirst (entriesGet k a.querys) (orFirst (entriesGet k m.querys)
          (orFirst (entriesGet k w.querys) (entriesGet k e.querys)))) ∧
      (buildRequest e w m a).data = a.clone.data ∧
      (∀ (e' : TestEngine) (w' : WebSite) (m' : Module),
        (buildRequest e' w' m' a).data = (buildRequest e w m a).data) := by
  refine ⟨?_, rfl, fun _ _ _ => rfl⟩
  intro k
  show entriesGet k ([e.querys, w.querys, m.querys, a.querys].foldl entriesSetAll []) = _
  exact entriesGet_merge4 _ _ _ _ he hw hm ha k

/-- Witness for C7 on the sample tree: key `q` is set at Engine, Module and
Endpoint and resolves to the Endpoint value; key `w` is set only at the
Site and resolves there; the body equals the body of the clone. -/
theorem query_merge_precedence_witness :
    entriesGet "q"
      (buildRequest sampleEngine sampleSite sampleModule sampleApi).params = some "qa" ∧
    entriesGet "w"
      (buildRequest sampleEngine sampleSite sampleModule sampleApi).params = some "ws" ∧
    (buildRequest sampleEngine sampleSite sampleModule sampleApi).data =
      sampleApi.clone.data := by
  have h := query_merge_precedence sampleEngine sampleSite sampleModule sampleApi
    (by decide) (by decide) (by decide) (by decide)
  exact ⟨(h.1 "q").trans (by decide), (h.1 "w").trans (by decide), h.2.1⟩

/-- C9: on every node type, `addHeader` (and `addQuery`) is an
overwrite-on-add upsert — adding `K=v1` then `K=v2` leaves exactly one
entry for `K`, holding `v2` — while `addSuccessCallback` and
`addFailCallback` always append, without de-duplication. -/
theorem add_operations_semantics :
    (∀ (x : TestEngine) (k v1 v2 : String) (c : Callback),
        countKey k x.headers ≤ 1 → countKey k x.querys ≤ 1 →
        ((x.addHeader k v1).addHeader k v2).headers.filter (fun p => p.1 = k) =
            [(k, v2)] ∧
          ((x.addQuery k v1).addQuery k v2).querys.filter (fun p => p.1 = k) =
            [(k, v2)] ∧
          ((x.addSuccessCallback c).addSuccessCallback c).success_callbacks =
            x.success_callbacks ++ [c, c] ∧
          ((x.addFailCallback c).addFailCallback c).fail_callbacks =
            x.fail_callbacks ++ [c, c]) ∧
      (∀ (x : WebSite) (k v1 v2 : String) (c : Callback),
        countKey k x.headers ≤ 1 → countKey k x.querys ≤ 1 →
        ((x.addHeader k v1).addHeader k v2).headers.filter (fun p => p.1 = k) =
            [(k, v2)] ∧
          ((x.addQuery k v1).addQuery k v2).querys.filter (fun p => p.1 = k) =
            [(k, v2)] ∧
          ((x.addSuccessCallback c).addSuccessCallback c).success_callbacks =
            x.success_callbacks ++ [c, c] ∧
          ((x.addFailCallback c).addFailCallback c).fail_callbacks =
            x.fail_callbacks ++ [c, c]) ∧
      (∀ (x : Module) (k v1 v2 : String) (c : Callback),
        countKey k x.headers ≤ 1 → countKey k x.querys ≤ 1 →
        ((x.addHeader k v1).addHeader k v2).headers.filter (fun p => p.1 = k) =
            [(k, v2)] ∧
          ((x.addQuery k v1).addQuery k v2).querys.filter (fun p => p.1 = k) =
            [(k, v2)] ∧
          ((x.addSuccessCallback c).addSuccessCallback c).success_callbacks =
            x.success_callbacks ++ [c, c] ∧
          ((x.addFailCallback c).addFailCallback c).fail_callbacks =
            x.fail_callbacks ++ [c, c]) ∧
      (∀ (x : Api) (k v1 v2 : String) (c : Callback),
        countKey k x.headers ≤ 1 → countKey k x.querys ≤ 1 →
        ((x.addHeader k v1).addHeader k v2).headers.filter (fun p => p.1 = k) =
            [(k, v2)] ∧
          ((x.addQuery k v1).addQuery k v2).querys.filter (fun p => p.1 = k) =
            [(k, v2)] ∧
          ((x.addSuccessCallback c).addSuccessCallback c).success_callbacks =
            x.success_callbacks ++ [c, c] ∧
          ((x.addFailCallback c).addFailCallback c).fail_callbacks =
            x.fail_callbacks ++ [c, c]) := by
  refine ⟨?_, ?_, ?_, ?_⟩ <;>
    · intro x k v1 v2 c hh hq
      refine ⟨?_, ?_, ?_, ?_⟩
      · exact filter_entriesSet _ k v2 (countKey_entriesSet_le _ k v1 hh)
      · exact filter_entriesSet _ k v2 (countKey_entriesSet_le _ k v1 hq)
      · simp [TestEngine.addSuccessCallback, WebSite.addSuccessCallback,
          Module.addSuccessCallback, Api.addSuccessCallback]
      · simp [TestEngine.addFailCallback, WebSite.addFailCallback,
          Module.addFailCallback, Api.addFailCallback]

/-- Witness for C9, one concrete node per level. -/
theorem add_operations_semantics_witness :
    ((sampleEngine.addHeader "K" "v1").addHeader "K" "v2").headers.filter
        (fun p => p.1 = "K") = [("K", "v2")] ∧
      ((sampleSite.addQuery "K" "v1").addQuery "K" "v2").querys.filter
        (fun p => p.1 = "K") = [("K", "v2")] ∧
      ((sampleModule.addSuccessCallback 7).addSuccessCallback 7).success_callbacks =
        [21, 7, 7] ∧
      ((sampleApi.addFailCallback 9).addFailCallback 9).fail_callbacks =
        [13, 9, 9] := by
  have h1 := (add_operations_semantics.1 sampleEngine "K" "v1" "v2" 7
    (by decide) (by decide)).1
  have h2 := (add_operations_semantics.2.1 sampleSite "K" "v1" "v2" 7
    (by decide) (by decide)).2.1
  have h3 := (add_operations_semantics.2.2.1 sampleModule "K" "v1" "v2" 7
    (by decide) (by decide)).2.2.1
  have h4 := (add_operations_semantics.2.2.2 sampleApi "K" "v1" "v2" 9
    (by decide) (by decide)).2.2.2
  exact ⟨h1, h2, h3.trans (by decide), h4.trans (by decide)⟩

/-- C8: on a tree with two Sites, each owning one Module with one Endpoint,
`start` issues exactly two requests; which requests are issued does not
depend on the outcomes at all, and the recorded events of each dispatch
depend only on its own outcome — changing the outcome of the other (a
different verdict or a transport error) leaves them unchanged. -/
theorem dispatch_independence (e : TestEngine) (w1 w2 : WebSite)
    (m1 m2 : Module) (a1 a2 : Api) (hw : e.webSites = [w1, w2])
    (h1 : w1.modules = [m1]) (h2 : w2.modules = [m2]) (h3 : m1.apis = [a1])
    (h4 : m2.apis = [a2]) (o o' : Nat → Outcome) :
    (e.start o).length = 2 ∧
      (e.start o).map Prod.fst = (e.start o').map Prod.fst ∧
      (o 0 = o' 0 → (e.start o).head? = (e.start o').head?) ∧
      (o 1 = o' 1 → (e.start o).getLast? = (e.start o').getLast?) := by
  have hd : e.dispatches = [(w1, m1, a1), (w2, m2, a2)] := by
    simp [TestEngine.dispatches, hw, h1, h2, h3, h4]
  refine ⟨?_, ?_, ?_, ?_⟩
  · simp [TestEngine.start, hd]
  · simp [TestEngine.start, hd]
  · intro ho
    simp [TestEngine.start, hd, List.enum, ho]
  · intro ho
    simp [TestEngine.start, hd, List.enum, ho]

/-- First endpoint of the C8 witness tree. -/
def apiA : Api :=
  Api.make { path := "/1", method := .GET, success_callbacks := some [101],
             fail_callbacks := some [103], error_callback := some 102 }

/-- Second endpoint of the C8 witness tree. -/
def apiB : Api :=
  Api.make { path := "/2", method := .GET, success_callbacks := some [201],
             fail_callbacks := some [203], error_callback := some 202 }

/-- Module owning `apiA`. -/
def modA : Module := Module.make { path := "", apis := some [apiA] }

/-- Module owning `apiB`. -/
def modB : Module := Module.make { path := "", apis := some [apiB] }

/-- Site owning `modA`. -/
def siteA : WebSite := WebSite.make { path := "/a", modules := some [modA] }

/-- Site owning `modB`. -/
def siteB : WebSite := WebSite.make { path := "/b", modules := some [modB] }

/-- Engine owning the two C8 witness sites. -/
def engAB : TestEngine := TestEngine.make { webSites := some [siteA, siteB] }

/-- Oracle where both dispatches succeed with status 200. -/
def oracleA : Nat → Outcome := fun n => if n == 0 then .ok resp200 else .ok resp200

/-- Oracle where the first dispatch succeeds as in `oracleA` but the second
rejects with a transport error. -/
def oracleB : Nat → Outcome := fun n =>
  if n == 0 then .ok resp200 else .err (JSValue.str "boom")

/-- Witness for C8: two requests are issued, the issued requests are
untouched by the outcome change, and the record of the first dispatch is
identical although the outcome of the second flipped from a success to
a transport error. -/
theorem dispatch_independence_witness :
    (engAB.start oracleA).length = 2 ∧
      (engAB.start oracleA).map Prod.fst = (engAB.start oracleB).map Prod.fst ∧
      (engAB.start oracleA).head? = (engAB.start oracleB).head? := by
  have h := dispatch_independence engAB siteA siteB modA modB apiA apiB
    rfl rfl rfl rfl rfl oracleA oracleB
  exact ⟨h.1, h.2.1, h.2.2.1 rfl⟩

/-! ### Store-based model: object identity for clone isolation

The pure model above tracks contents only.  `Api.clone` and the merge step
of `start` also make claims about object identity — the clone is a new
object whose collection-valued fields alias the collections of the source,
and the merge step reassigns fields of the clone without touching the
canonical endpoint.  This second model therefore threads an explicit store
of heap objects addressed by references. -/

/-- Field record of an `Api` object in the store model.  Collection-valued
fields hold references into the store; `error_callback` and `verifyId`
are function identities; `data` may carry an object reference inside
`JSValue.obj`. -/
structure ApiFields where
  path : String
  method : HTTPMethod
  headersRef : Nat
  querysRef : Nat
  successRef : Nat
  failRef : Nat
  error_callback : Callback
  verifyId : Nat
  data : JSValue
  name : String
  description : String
deriving DecidableEq, Repr

/-- The heap: AxiosHeaders objects, Map objects, callback arrays and Api
objects, addressed by references drawn from one counter. -/
structure Store where
  hdrObjs : List (Nat × Entries)
  mapObjs : List (Nat × Entries)
  arrObjs : List (Nat × List Callback)
  apiObjs : List (Nat × ApiFields)
  nextRef : Nat
deriving DecidableEq, Repr

/-- Allocate a fresh AxiosHeaders object. -/
def Store.allocHdr (σ : Store) (d : Entries) : Nat × Store :=
  (σ.nextRef,
    { σ with hdrObjs := (σ.nextRef, d) :: σ.hdrObjs, nextRef := σ.nextRef + 1 })

/-- Allocate a fresh Map object. -/
def Store.allocMap (σ : Store) (d : Entries) : Nat × Store :=
  (σ.nextRef,
    { σ with mapObjs := (σ.nextRef, d) :: σ.mapObjs, nextRef := σ.nextRef + 1 })

/-- Allocate a fresh callback array. -/
def Store.allocArr (σ : Store) (d : List Callback) : Nat × Store :=
  (σ.nextRef,
    { σ with arrObjs := (σ.nextRef, d) :: σ.arrObjs, nextRef := σ.nextRef + 1 })

/-- Allocate a fresh Api object. -/
def Store.allocApi (σ : Store) (f : ApiFields) : Nat × Store :=
  (σ.nextRef,
    { σ with apiObjs := (σ.nextRef, f) :: σ.apiObjs, nextRef := σ.nextRef + 1 })

/-- Allocate a bare fresh identity (a function literal, or the object
literal fed into `data || { }`). -/
def Store.allocId (σ : Store) : Nat × Store :=
  (σ.nextRef, { σ with nextRef := σ.nextRef + 1 })

/-- Contents of the AxiosHeaders object at a reference. -/
def Store.getHdr (σ : Store) (r : Nat) : Option Entries :=
  (σ.hdrObjs.find? (fun p => p.1 == r)).map Prod.snd

/-- Contents of the Map object at a reference. -/
def Store.getMap (σ : Store) (r : Nat) : Option Entries :=
  (σ.mapObjs.find? (fun p => p.1 == r)).map Prod.snd

/-- Contents of the callback array at a reference. -/
def Store.getArr (σ : Store) (r : Nat) : Option (List Callback) :=
  (σ.arrObjs.find? (fun p => p.1 == r)).map Prod.snd

/-- Field record of the Api object at a reference. -/
def Store.getApi (σ : Store) (r : Nat) : Option ApiFields :=
  (σ.apiObjs.find? (fun p => p.1 == r)).map Prod.snd

/-- Overwrite the contents of the Map object at a reference. -/
def Store.setMap (σ : Store) (r : Nat) (d : Entries) : Store :=
  { σ with mapObjs := σ.mapObjs.map (fun p => if p.1 == r then (p.1, d) else p) }

/-- Overwrite the field record of the Api object at a reference (a field
assignment on that object). -/
def Store.setApi (σ : Store) (r : Nat) (f : ApiFields) : Store :=
  { σ with apiObjs := σ.apiObjs.map (fun p => if p.1 == r then (p.1, f) else p) }

/-- Options object of the `Api` constructor in the store model; collection
options are references to existing objects. -/
structure ApiConfigW where
  path : String
  method : HTTPMethod
  headersRef : Option Nat := none
  querysRef : Option Nat := none
  successRef : Option Nat := none
  failRef : Option Nat := none
  error_callback : Option Callback := none
  verifyId : Option Nat := none
  data : Option JSValue := none
  name : Option String := none
  description : Option String := none

/-- The `Api` constructor over the store, assigning fields in source order:
each `x || default` keeps a provided (truthy) value as-is — so a provided
collection reference is stored unchanged, aliasing the object of the caller —
and only evaluates the default, allocating a fresh object, when the option
is missing; `data || {}` also replaces a provided falsy payload by a fresh
empty object literal. -/
def Api.newW (σ0 : Store) (c : ApiConfigW) : Nat × Store :=
  let h := match c.headersRef with | some r => (r, σ0) | none => σ0.allocHdr []
  let q := match c.querysRef with | some r => (r, h.2) | none => h.2.allocMap []
  let s := match c.successRef with | some r => (r, q.2) | none => q.2.allocArr []
  let f := match c.failRef with | some r => (r, s.2) | none => s.2.allocArr []
  let ec := match c.error_callback with | some cb => (cb, f.2) | none => f.2.allocId
  let v := match c.verifyId with | some i => (i, ec.2) | none => ec.2.allocId
  let d := match c.data with
    | some d0 =>
        if d0.truthy then (d0, v.2)
        else ((JSValue.obj (v.2.allocId).1, (v.2.allocId).2))
    | none => ((JSValue.obj (v.2.allocId).1, (v.2.allocId).2))
  d.2.allocApi
    { path := c.path
      method := c.method
      headersRef := h.1
      querysRef := q.1
      successRef := s.1
      failRef := f.1
      error_callback := ec.1
      verifyId := v.1
      data := d.1
      name := jsOrString c.name ""
      description := jsOrString c.description "" }

/-- `Api.clone` in the store model: read the fields of the receiver and pass
every one of them to the `Api` constructor, producing a fresh Api object. -/
def Api.cloneW (σ : Store) (r : Nat) : Option (Nat × Store) :=
  match σ.getApi r with
  | none => none
  | some f =>
      some (Api.newW σ
        { path := f.path
          method := f.method
          headersRef := some f.headersRef
          querysRef := some f.querysRef
          successRef := some f.successRef
          failRef := some f.failRef
          error_callback := some f.error_callback
          verifyId := some f.verifyId
          data := some f.data
          name := some f.name
          description := some f.description })

/-- Path, header and query contents of one ancestor level, as the merge
step consumes them. -/
structure LevelData where
  path : String
  headers : Entries
  querys : Entries

/-- The axios instance call `self.concat(target)` on the store: a new
merged AxiosHeaders object is allocated and returned, and the receiver is
left untouched; `start` discards the returned reference. -/
def Store.hdrConcatW (σ : Store) (selfRef : Nat) (target : Entries) : Store :=
  (σ.allocHdr (entriesSetAll (entriesSetAll [] ((σ.getHdr selfRef).getD [])) target)).2

/-- One level of the `params.set` loop: write every entry of `qs` into the
Map object at `r`. -/
def Store.mapSetAllW (σ : Store) (r : Nat) (qs : Entries) : Store :=
  σ.setMap r (entriesSetAll ((σ.getMap r).getD []) qs)

/-- The body of the innermost `start` loop up to the `client.do` call, in
the store model: clone the endpoint, allocate the empty header
accumulator, run the four discarded `concat` calls, and assign the merged
headers, joined path and fresh query map onto the clone by field
assignment.  Ancestor levels enter by contents, the endpoint by
reference. -/
def mergeStepW (σ0 : Store) (eng ws md : LevelData) (apiRef : Nat) :
    Option (Nat × Store) :=
  match σ0.getApi apiRef with
  | none => none
  | some af =>
      match Api.cloneW σ0 apiRef with
      | none => none
      | some (capiRef, σ1) =>
          let hp := σ1.allocHdr []
          let aHdrs := (σ1.getHdr af.headersRef).getD []
          let σ2 := [eng.headers, ws.headers, md.headers, aHdrs].foldl
            (fun σ t => σ.hdrConcatW hp.1 t) hp.2
          let σ3 := match σ2.getApi capiRef with
            | some cf => σ2.setApi capiRef { cf with headersRef := hp.1 }
            | none => σ2
          let σ4 := match σ3.getApi capiRef with
            | some cf => σ3.setApi capiRef
                { cf with path := String.join [eng.path, ws.path, md.path, af.path] }
            | none => σ3
          let pp := σ4.allocMap []
          let aQs := (pp.2.getMap af.querysRef).getD []
          let σ5 := [eng.querys, ws.querys, md.querys, aQs].foldl
            (fun σ qs => σ.mapSetAllW pp.1 qs) pp.2
          let σ6 := match σ5.getApi capiRef with
            | some cf => σ5.setApi capiRef { cf with querysRef := pp.1 }
            | none => σ5
          some (capiRef, σ6)

/-- Build a store holding one endpoint the way a caller does: allocate the
header map, query map and two callback arrays, then run the `Api`
constructor with all options supplied. -/
def setupApi (hs qs : Entries) (succ fl : List Callback) (ecb vId : Nat)
    (p : String) (mth : HTTPMethod) (d : JSValue) (nm ds : String) :
    Nat × Store :=
  let σ0 : Store :=
    { hdrObjs := [], mapObjs := [], arrObjs := [], apiObjs := [], nextRef := 0 }
  let h := σ0.allocHdr hs
  let q := h.2.allocMap qs
  let s := q.2.allocArr succ
  let f := s.2.allocArr fl
  Api.newW f.2
    { path := p
      method := mth
      headersRef := some h.1
      querysRef := some q.1
      successRef := some s.1
      failRef := some f.1
      error_callback := some ecb
      verifyId := some vId
      data := some d
      name := some nm
      description := some ds }

theorem jsOrString_some_empty (s : String) : jsOrString (some s) "" = s := by
  by_cases h : s = "" <;> simp [jsOrString, h]

/-- C3: for an endpoint built by the constructor (whose `data || {}` makes
the body truthy), `clone` returns a fresh Api object — a reference the
store did not hold — whose stored field record equals that of the source,
hence
sharing the very same header-map, query-map and callback-array references
and the same error handler, verify identity, body, name and description;
cloning mutates neither the source object nor any collection object; and
the later reassignment of headers, path and query map on the clone by the
merge step leaves the record of the canonical endpoint and the contents of
all four of its collections exactly as they were before the dispatch. -/
theorem clone_isolation (hs qs : Entries) (succ fl : List Callback)
    (ecb vId : Nat) (p : String) (mth : HTTPMethod) (d : JSValue)
    (nm ds : String) (eng ws md : LevelData) (aRef : Nat) (σ : Store)
    (h0 : setupApi hs qs succ fl ecb vId p mth d nm ds = (aRef, σ))
    (hd : d.truthy = true) :
    (Api.cloneW σ aRef).map Prod.fst = some σ.nextRef ∧
      σ.nextRef ≠ aRef ∧
      (Api.cloneW σ aRef).bind (fun pr => pr.2.getApi pr.1) = σ.getApi aRef ∧
      (Api.cloneW σ aRef).map (fun pr => pr.2.getApi aRef) =
        some (σ.getApi aRef) ∧
      (Api.cloneW σ aRef).map
          (fun pr => (pr.2.hdrObjs, pr.2.mapObjs, pr.2.arrObjs)) =
        some (σ.hdrObjs, σ.mapObjs, σ.arrObjs) ∧
      (mergeStepW σ eng ws md aRef).map (fun pr => pr.2.getApi aRef) =
        some (σ.getApi aRef) ∧
      (∀ af, σ.getApi aRef = some af →
        σ.getHdr af.headersRef = some hs ∧
        σ.getMap af.querysRef = some qs ∧
        σ.getArr af.successRef = some succ ∧
        σ.getArr af.failRef = some fl ∧
        af.data = d ∧ af.path = p ∧
        (mergeStepW σ eng ws md aRef).map
            (fun pr => (pr.2.getHdr af.headersRef, pr.2.getMap af.querysRef,
              pr.2.getArr af.successRef, pr.2.getArr af.failRef)) =
          some (some hs, some qs, some succ, some fl)) := by
  have hsetup : setupApi hs qs succ fl ecb vId p mth d nm ds =
      (4, { hdrObjs := [(0, hs)], mapObjs := [(1, qs)],
            arrObjs := [(3, fl), (2, succ)],
            apiObjs := [(4,
              { path := p, method := mth, headersRef := 0, querysRef := 1,
                successRef := 2, failRef := 3, error_callback := ecb,
                verifyId := vId, data := d, name := nm, description := ds })],
            nextRef := 5 }) := by
    simp [setupApi, Api.newW, Store.allocHdr, Store.allocMap, Store.allocArr,
      Store.allocApi, hd, jsOrString_some_empty]
  rw [h0] at hsetup
  injection hsetup with ha hσ
  subst ha
  subst hσ
  refine ⟨?_, ?_, ?_, ?_, ?_, ?_, ?_⟩
  · simp [Api.cloneW, Api.newW, Store.getApi, Store.allocApi, hd, jsOrString_some_empty]
  · simp
  · simp [Api.cloneW, Api.newW, Store.getApi, Store.allocApi, hd, jsOrString_some_empty]
  · simp [Api.cloneW, Api.newW, Store.getApi, Store.allocApi, hd, jsOrString_some_empty]
  · simp [Api.cloneW, Api.newW, Store.getApi, Store.allocApi, hd, jsOrString_some_empty]
  · simp [mergeStepW, Api.cloneW, Api.newW, Store.getApi, Store.allocApi,
      Store.allocHdr, Store.allocMap, Store.getHdr, Store.getMap,
      Store.hdrConcatW, Store.mapSetAllW, Store.setApi, Store.setMap, hd,
      jsOrString_some_empty]
  · intro af haf
    have haf' : af =
        { path := p, method := mth, headersRef := 0, querysRef := 1,
          successRef := 2, failRef := 3, error_callback := ecb, verifyId := vId,
          data := d, name := nm, description := ds } := by
      simp [Store.getApi] at haf
      exact haf.symm
    subst haf'
    refine ⟨?_, ?_, ?_, ?_, rfl, rfl, ?_⟩
    · simp [Store.getHdr]
    · simp [Store.getMap]
    · simp [Store.getArr]
    · simp [Store.getArr]
    · simp [mergeStepW, Api.cloneW, Api.newW, Store.getApi, Store.allocApi,
        Store.allocHdr, Store.allocMap, Store.getHdr, Store.getMap, Store.getArr,
        Store.hdrConcatW, Store.mapSetAllW, Store.setApi, Store.setMap, hd,
        jsOrString_some_empty]

/-- Store holding the concrete endpoint of the C3 witness. -/
def wSetup : Nat × Store :=
  setupApi [("H", "b")] [("q", "qa")] [11] [13] 14 15 "/e" .GET
    (.str "payload") "n" "d"

/-- Engine-level contents for the C3 witness. -/
def wEng : LevelData := ⟨"https://x", [("H", "a")], [("q", "qe")]⟩

/-- Site-level contents for the C3 witness. -/
def wSite : LevelData := ⟨"/s", [], [("w", "ws")]⟩

/-- Module-level contents for the C3 witness. -/
def wMod : LevelData := ⟨"", [], [("q", "qm")]⟩

/-- The field record the C3 witness endpoint is stored with. -/
def wFields : ApiFields :=
  { path := "/e", method := .GET, headersRef := 0, querysRef := 1,
    successRef := 2, failRef := 3, error_callback := 14, verifyId := 15,
    data := .str "payload", name := "n", description := "d" }

/-- Witness for C3 on the concrete endpoint: the clone is the next fresh
reference, its record equals that of the source, and after the merge step the
canonical record and all four collection contents are unchanged. -/
theorem clone_isolation_witness :
    (Api.cloneW wSetup.2 wSetup.1).map Prod.fst = some wSetup.2.nextRef ∧
      (Api.cloneW wSetup.2 wSetup.1).bind (fun pr => pr.2.getApi pr.1) =
        wSetup.2.getApi wSetup.1 ∧
      (mergeStepW wSetup.2 wEng wSite wMod wSetup.1).map
          (fun pr => pr.2.getApi wSetup.1) =
        some (wSetup.2.getApi wSetup.1) ∧
      (mergeStepW wSetup.2 wEng wSite wMod wSetup.1).map
          (fun pr => (pr.2.getHdr wFields.headersRef,
            pr.2.getMap wFields.querysRef, pr.2.getArr wFields.successRef,
            pr.2.getArr wFields.failRef)) =
        some (some [("H", "b")], some [("q", "qa")], some [11], some [13]) := by
  have h := clone_isolation [("H", "b")] [("q", "qa")] [11] [13] 14 15 "/e"
    .GET (.str "payload") "n" "d" wEng wSite wMod wSetup.1 wSetup.2 rfl
    (by decide)
  exact ⟨h.1, h.2.2.1,
    h.2.2.2.2.2.1,
    (h.2.2.2.2.2.2 wFields (by decide)).2.2.2.2.2.2⟩

end WebApiTester
